import Mathlib

/-!
Verification of the data-access and reporting layer of the social-media
analytics dashboard (src/app.py, src/analytics/queries.py).

The four SQLite tables of the fallback schema in ensure_database become
list-backed tables; each SQL statement or handler becomes an explicit Lean
function on the database state.  SQL LEFT JOIN / GROUP BY semantics are
embedded row by row: a LEFT JOIN of a parent row against a child table
contributes the matching child rows, or a single NULL row when no child
matches, and COUNT(col) counts the non-NULL entries of the group.
-/

/-- Row of the Users table of the fallback schema: user_id INTEGER PRIMARY
KEY, username TEXT, email TEXT UNIQUE, created_at TEXT, password TEXT
(the stored SHA-256 digest). -/
structure UserRow where
  user_id : Nat
  username : String
  email : String
  password : String
  created_at : String
deriving DecidableEq

/-- Row of the Posts table: post_id INTEGER PRIMARY KEY, user_id INTEGER,
content TEXT, likes INTEGER DEFAULT 0, created_at TEXT. -/
structure PostRow where
  post_id : Nat
  user_id : Nat
  content : String
  likes : Nat
  created_at : String
deriving DecidableEq

/-- Row of the Comments table: comment_id INTEGER PRIMARY KEY, post_id
INTEGER, user_id INTEGER, content TEXT, created_at TEXT. -/
structure CommentRow where
  comment_id : Nat
  post_id : Nat
  user_id : Nat
  content : String
  created_at : String
deriving DecidableEq

/-- Row of the Relationships table: follower_id INTEGER, following_id
INTEGER (a directed follow edge, no surrogate key). -/
structure RelRow where
  follower_id : Nat
  following_id : Nat
deriving DecidableEq

/-- The database state: the four tables of the fallback schema. -/
structure DB where
  users : List UserRow
  posts : List PostRow
  comments : List CommentRow
  relationships : List RelRow
deriving DecidableEq

/-! ### ORDER BY ... DESC embedding: a structural insertion sort -/

/-- Insert an element into a list sorted descending by the key. -/
def insertDesc {α : Type} (key : α → Nat) (x : α) : List α → List α
  | [] => [x]
  | y :: ys => if key y ≤ key x then x :: y :: ys else y :: insertDesc key x ys

/-- Sort a list descending by the key (ORDER BY key DESC). -/
def sortDesc {α : Type} (key : α → Nat) : List α → List α
  | [] => []
  | x :: xs => insertDesc key x (sortDesc key xs)

theorem mem_insertDesc {α : Type} (key : α → Nat) (x : α) (l : List α) (a : α) :
    a ∈ insertDesc key x l ↔ a = x ∨ a ∈ l := by
  induction l with
  | nil => simp [insertDesc]
  | cons y ys ih =>
    by_cases h : key y ≤ key x
    · simp [insertDesc, h]
    · simp only [insertDesc, if_neg h, List.mem_cons, ih]
      tauto

theorem mem_sortDesc {α : Type} (key : α → Nat) (l : List α) (a : α) :
    a ∈ sortDesc key l ↔ a ∈ l := by
  induction l with
  | nil => simp [sortDesc]
  | cons x xs ih => simp [sortDesc, mem_insertDesc, ih]

theorem length_insertDesc {α : Type} (key : α → Nat) (x : α) (l : List α) :
    (insertDesc key x l).length = l.length + 1 := by
  induction l with
  | nil => simp [insertDesc]
  | cons y ys ih =>
    by_cases h : key y ≤ key x
    · simp [insertDesc, h]
    · simp [insertDesc, h, ih]

theorem length_sortDesc {α : Type} (key : α → Nat) (l : List α) :
    (sortDesc key l).length = l.length := by
  induction l with
  | nil => rfl
  | cons x xs ih => simp [sortDesc, length_insertDesc, ih]

theorem pairwise_insertDesc {α : Type} (key : α → Nat) (x : α) (l : List α)
    (hl : List.Pairwise (fun a b => key b ≤ key a) l) :
    List.Pairwise (fun a b => key b ≤ key a) (insertDesc key x l) := by
  induction l with
  | nil => simp [insertDesc]
  | cons y ys ih =>
    rcases List.pairwise_cons.mp hl with ⟨hy, hys⟩
    by_cases h : key y ≤ key x
    · rw [insertDesc, if_pos h]
      refine List.pairwise_cons.mpr ⟨?_, hl⟩
      intro b hb
      rcases List.mem_cons.mp hb with rfl | hb
      · exact h
      · exact le_trans (hy b hb) h
    · rw [insertDesc, if_neg h]
      refine List.pairwise_cons.mpr ⟨?_, ih hys⟩
      intro b hb
      rcases (mem_insertDesc key x ys b).mp hb with rfl | hb
      · exact le_of_not_le h
      · exact hy b hb

theorem pairwise_sortDesc {α : Type} (key : α → Nat) (l : List α) :
    List.Pairwise (fun a b => key b ≤ key a) (sortDesc key l) := by
  induction l with
  | nil => simp [sortDesc]
  | cons x xs ih => exact pairwise_insertDesc key x _ ih

/-! ### GROUP BY embedding: first-occurrence deduplication of group keys -/

/-- Distinct values of a list, keeping the first occurrence of each
(the group keys produced by GROUP BY, in an arbitrary but fixed order). -/
def dedupFirst {α : Type} [DecidableEq α] : List α → List α
  | [] => []
  | x :: xs => x :: (dedupFirst xs).filter (fun y => !(decide (y = x)))

theorem mem_dedupFirst {α : Type} [DecidableEq α] (l : List α) (a : α) :
    a ∈ dedupFirst l ↔ a ∈ l := by
  induction l with
  | nil => simp [dedupFirst]
  | cons x xs ih =>
    simp only [dedupFirst, List.mem_cons, List.mem_filter, ih]
    by_cases h : a = x
    · simp [h]
    · simp [h]

/-! ### Claim C1: the Most Active Users query

Embedding of the Analytics branch query

  SELECT u.username, (COUNT(p.post_id) + COUNT(c.comment_id)) AS total_activity
  FROM Users u
  LEFT JOIN Posts p ON u.user_id = p.user_id
  LEFT JOIN Comments c ON u.user_id = c.user_id
  GROUP BY u.username
  ORDER BY total_activity DESC
  LIMIT 10;

For one user the two LEFT JOINs produce the cross product of the matching
post rows and the matching comment rows (with a NULL row standing in for an
empty side), and COUNT counts non-NULL entries of the group. -/

/-- Posts authored by the given user (ON u.user_id = p.user_id). -/
def postsOf (db : DB) (uid : Nat) : List PostRow :=
  db.posts.filter (fun p => p.user_id == uid)

/-- Comments authored by the given user (ON u.user_id = c.user_id). -/
def commentsOf (db : DB) (uid : Nat) : List CommentRow :=
  db.comments.filter (fun c => c.user_id == uid)

/-- The rows the double LEFT JOIN contributes for one user: the cross
product of the matching posts and the matching comments, with a NULL
standing in for an empty side. -/
def activityJoinRows (db : DB) (u : UserRow) : List (Option PostRow × Option CommentRow) :=
  let ps := postsOf db u.user_id
  let cs := commentsOf db u.user_id
  let ps2 := if ps.isEmpty then [none] else ps.map some
  let cs2 := if cs.isEmpty then [none] else cs.map some
  ps2.flatMap (fun p => cs2.map (fun c => (p, c)))

/-- total_activity of one GROUP BY u.username group:
COUNT(p.post_id) + COUNT(c.comment_id) over the join rows of every user
carrying that username. -/
def totalActivity (db : DB) (uname : String) : Nat :=
  ((db.users.filter (fun u => u.username == uname)).map (fun u =>
    let rows := activityJoinRows db u
    (rows.filter (fun r => r.1.isSome)).length +
      (rows.filter (fun r => r.2.isSome)).length)).sum

/-- The full Most Active Users result: one row per distinct username,
ordered descending by total_activity, LIMIT 10. -/
def mostActiveUsers (db : DB) : List (String × Nat) :=
  (sortDesc (fun e => e.2)
    ((dedupFirst (db.users.map (fun u => u.username))).map
      (fun g => (g, totalActivity db g)))).take 10

/-- Concrete database: one user (alice, id 1) with exactly 3 posts and
2 comments. -/
def exDB1 : DB :=
  { users := [⟨1, "alice", "alice@example.com", "h1", "t0"⟩],
    posts := [⟨1, 1, "p1", 0, "t1"⟩, ⟨2, 1, "p2", 0, "t2"⟩, ⟨3, 1, "p3", 0, "t3"⟩],
    comments := [⟨1, 1, 1, "c1", "t4"⟩, ⟨2, 2, 1, "c2", "t5"⟩],
    relationships := [] }

/-- Claim C1 (code-bug evidence): the Most Active Users query joins Posts
and Comments in a single query, so the two LEFT JOINs cross-multiply.  For
the user alice with exactly 3 posts and 2 comments the query reports
total_activity = 12 (COUNT over the 3 x 2 = 6 cross-product rows), not the
claimed 3 + 2 = 5 obtained from independently counted source tables. -/
theorem mostActive_cross_multiplies :
    (postsOf exDB1 1).length = 3 ∧
    (commentsOf exDB1 1).length = 2 ∧
    mostActiveUsers exDB1 = [("alice", 12)] ∧
    totalActivity exDB1 "alice" ≠ 5 := by
  refine ⟨by decide, by decide, by decide, by decide⟩

/-! ### Claim C2: the user-delete cascade

Embedding of the Confirm Delete handler (User Management / Delete User):

  DELETE FROM Posts WHERE user_id=?;
  DELETE FROM Comments WHERE user_id=?;
  DELETE FROM Relationships WHERE follower_id=? OR following_id=?;
  DELETE FROM Users WHERE user_id=?;
-/

/-- The user-delete cascade of the Confirm Delete handler.  Note that the
Comments deletion filters on the comment author (user_id), not on the
post_id of the deleted posts. -/
def deleteUser (db : DB) (uid : Nat) : DB :=
  { users := db.users.filter (fun u => !(u.user_id == uid)),
    posts := db.posts.filter (fun p => !(p.user_id == uid)),
    comments := db.comments.filter (fun c => !(c.user_id == uid)),
    relationships := db.relationships.filter
      (fun r => !(r.follower_id == uid || r.following_id == uid)) }

/-- Concrete database: user 1 authored posts 1 and 2, authored a comment
(comment 2, on post 2), and appears as the following side of the edge
(2, 1); user 2 authored a comment on post 1. -/
def exDB2 : DB :=
  { users := [⟨1, "u", "e1", "h", "t"⟩, ⟨2, "v", "e2", "h", "t"⟩],
    posts := [⟨1, 1, "p1", 0, "t"⟩, ⟨2, 1, "p2", 0, "t"⟩],
    comments := [⟨1, 1, 2, "reply", "t"⟩, ⟨2, 2, 1, "own", "t"⟩],
    relationships := [⟨2, 1⟩] }

/-- Claim C2 (counterexample): user 1 satisfies every hypothesis of the
claim — it authored the posts 1 and 2, it authored a comment (comment 2),
and it appears in a relationship edge — yet after deleting user 1 a
comment whose post_id is 1 is still present, because the handler deletes
only the comments authored by the deleted user.  So the claim that the
Comments table keeps no row whose post_id was one of the deleted posts is
false on the code. -/
theorem deleteUser_keeps_comments_on_deleted_posts :
    (exDB2.posts.filter (fun p => p.user_id == 1)).map (fun p => p.post_id) = [1, 2] ∧
    (exDB2.comments.filter (fun c => c.user_id == 1)).map (fun c => c.comment_id) = [2] ∧
    (exDB2.relationships.filter
      (fun r => r.follower_id == 1 || r.following_id == 1)).length = 1 ∧
    ((deleteUser exDB2 1).comments.filter (fun c => c.post_id == 1)).length = 1 := by
  refine ⟨by decide, by decide, by decide, by decide⟩

/-- Claim C2 (amended): after deleting user U, the Users table has no row
for U, the Posts table has no post authored by U, the Comments table has no
comment authored by U (comments by other users on the deleted posts
remain), and the Relationships table has no edge with U on either side. -/
theorem deleteUser_cascade (db : DB) (uid : Nat) :
    (∀ u ∈ (deleteUser db uid).users, u.user_id ≠ uid) ∧
    (∀ p ∈ (deleteUser db uid).posts, p.user_id ≠ uid) ∧
    (∀ c ∈ (deleteUser db uid).comments, c.user_id ≠ uid) ∧
    (∀ r ∈ (deleteUser db uid).relationships,
      r.follower_id ≠ uid ∧ r.following_id ≠ uid) := by
  refine ⟨?_, ?_, ?_, ?_⟩ <;>
    · intro x hx
      have hx2 := (List.mem_filter.mp hx).2
      simp only [Bool.not_eq_true', beq_eq_false_iff_ne, ne_eq,
        Bool.not_eq_true, Bool.or_eq_false_iff, beq_eq_false_iff_ne] at hx2
      try exact hx2
      try tauto

/-- Witness for the amended Claim C2 at a concrete input: the surviving
user row of exDB2 after deleting user 1 indeed has user_id different
from 1. -/
theorem deleteUser_cascade_witness :
    (⟨2, "v", "e2", "h", "t"⟩ : UserRow) ∈ (deleteUser exDB2 1).users ∧
    (⟨2, "v", "e2", "h", "t"⟩ : UserRow).user_id ≠ 1 :=
  ⟨by decide, (deleteUser_cascade exDB2 1).1 ⟨2, "v", "e2", "h", "t"⟩ (by decide)⟩

/-! ### Claim C3: duplicate-email handling in register_user

Embedding of register_user:

  cur.execute("SELECT user_id FROM Users WHERE email=?", (email,))
  if cur.fetchone():
      return "Email already registered."
  cur.execute("INSERT INTO Users (username, email, password, created_at) VALUES ...")
  return True

The function first runs an explicit existence pre-check and returns the
duplicate-email message without ever executing the INSERT; the outcome
records whether an INSERT statement was attempted. -/

/-- The AUTOINCREMENT id for the next Users row. -/
def nextUserId (db : DB) : Nat :=
  (db.users.map (fun u => u.user_id)).foldr Nat.max 0 + 1

/-- Outcome of one register_user call: the resulting database, whether an
INSERT statement was attempted, whether the call returned True, and the
message returned on failure. -/
structure RegisterOutcome where
  newDb : DB
  insertAttempted : Bool
  success : Bool
  message : String
deriving DecidableEq

/-- register_user: pre-check SELECT on the email, early return with
"Email already registered." on a hit, otherwise INSERT the new row with
the hashed password.  The digest function is a parameter of the
embedding. -/
def register_user (hash : String → String) (db : DB)
    (username email password now : String) : RegisterOutcome :=
  if !(db.users.filter (fun u => u.email == email)).isEmpty then
    { newDb := db, insertAttempted := false, success := false,
      message := "Email already registered." }
  else
    { newDb := { db with users :=
        db.users ++ [⟨nextUserId db, username, email, hash password, now⟩] },
      insertAttempted := true, success := true, message := "" }

/-- A concrete stand-in digest function for evaluations. -/
def hash0 (s : String) : String := String.append s "#"

/-- Claim C3 (counterexample): registering the same email twice starting
from an empty database.  The second call fails, but not through the
storage-layer uniqueness constraint: the pre-check SELECT catches the
duplicate and the INSERT of the second call is never attempted, refuting
the claim that the duplicate is detected via the uniqueness constraint
rather than a check-then-insert pre-check. -/
theorem register_precheck_not_constraint :
    (register_user hash0
      (register_user hash0 ⟨[], [], [], []⟩ "u1" "e@x" "p1" "t1").newDb
      "u2" "e@x" "p2" "t2").success = false ∧
    (register_user hash0
      (register_user hash0 ⟨[], [], [], []⟩ "u1" "e@x" "p1" "t1").newDb
      "u2" "e@x" "p2" "t2").insertAttempted = false := by
  refine ⟨by decide, by decide⟩

theorem register_user_of_fresh (hash : String → String) (db : DB)
    (un email pw now : String)
    (hfresh : (db.users.filter (fun u => u.email == email)).isEmpty = true) :
    register_user hash db un email pw now =
      { newDb := { db with users :=
          db.users ++ [⟨nextUserId db, un, email, hash pw, now⟩] },
        insertAttempted := true, success := true, message := "" } := by
  rw [register_user, if_neg (by simp [hfresh])]

theorem register_user_of_dup (hash : String → String) (db : DB)
    (un email pw now : String)
    (hdup : (db.users.filter (fun u => u.email == email)).isEmpty = false) :
    register_user hash db un email pw now =
      { newDb := db, insertAttempted := false, success := false,
        message := "Email already registered." } := by
  rw [register_user, if_pos (by simp [hdup])]

/-- Claim C3 (amended): for every database in which the email is not yet
present, the first registration succeeds, the second registration with the
same email fails with the duplicate-email message while leaving the
database unchanged, the Users table afterwards contains exactly one row
with that email, and the duplicate is detected by the explicit
check-then-insert pre-check (the second INSERT is never attempted). -/
theorem register_duplicate_email (hash : String → String) (db : DB)
    (u1 email p1 t1 u2 p2 t2 : String)
    (hfresh : (db.users.filter (fun u => u.email == email)).isEmpty = true) :
    (register_user hash db u1 email p1 t1).success = true ∧
    (register_user hash (register_user hash db u1 email p1 t1).newDb
        u2 email p2 t2).success = false ∧
    (register_user hash (register_user hash db u1 email p1 t1).newDb
        u2 email p2 t2).insertAttempted = false ∧
    (register_user hash (register_user hash db u1 email p1 t1).newDb
        u2 email p2 t2).message = "Email already registered." ∧
    (register_user hash (register_user hash db u1 email p1 t1).newDb
        u2 email p2 t2).newDb = (register_user hash db u1 email p1 t1).newDb ∧
    ((register_user hash db u1 email p1 t1).newDb.users.filter
        (fun u => u.email == email)).length = 1 := by
  have h1 := register_user_of_fresh hash db u1 email p1 t1 hfresh
  have hfilter : ((register_user hash db u1 email p1 t1).newDb.users.filter
      (fun u => u.email == email)) =
      [⟨nextUserId db, u1, email, hash p1, t1⟩] := by
    rw [h1]
    simp only [List.filter_append, List.isEmpty_iff.mp hfresh]
    simp
  have h2 := register_user_of_dup hash (register_user hash db u1 email p1 t1).newDb
    u2 email p2 t2 (by simp [hfilter])
  refine ⟨by rw [h1], by rw [h2], by rw [h2], by rw [h2], by rw [h2], by rw [hfilter]; rfl⟩

/-- Witness for the amended Claim C3 at a concrete input: registering
"e@x" twice from the empty database. -/
theorem register_duplicate_email_witness :
    (register_user hash0 ⟨[], [], [], []⟩ "u1" "e@x" "p1" "t1").success = true ∧
    (register_user hash0
      (register_user hash0 ⟨[], [], [], []⟩ "u1" "e@x" "p1" "t1").newDb
      "u2" "e@x" "p2" "t2").success = false ∧
    (register_user hash0
      (register_user hash0 ⟨[], [], [], []⟩ "u1" "e@x" "p1" "t1").newDb
      "u2" "e@x" "p2" "t2").insertAttempted = false ∧
    (register_user hash0
      (register_user hash0 ⟨[], [], [], []⟩ "u1" "e@x" "p1" "t1").newDb
      "u2" "e@x" "p2" "t2").message = "Email already registered." ∧
    (register_user hash0
      (register_user hash0 ⟨[], [], [], []⟩ "u1" "e@x" "p1" "t1").newDb
      "u2" "e@x" "p2" "t2").newDb =
      (register_user hash0 ⟨[], [], [], []⟩ "u1" "e@x" "p1" "t1").newDb ∧
    ((register_user hash0 ⟨[], [], [], []⟩ "u1" "e@x" "p1" "t1").newDb.users.filter
      (fun u => u.email == "e@x")).length = 1 :=
  register_duplicate_email hash0 ⟨[], [], [], []⟩ "u1" "e@x" "p1" "t1" "u2" "p2" "t2"
    (by decide)

/-! ### Claim C4: verify_user / authenticate

Embedding of verify_user:

  h = hash_password(password)
  cur.execute("SELECT user_id, username, email FROM Users WHERE email=? AND password=?",
              (email, h))
  row = cur.fetchone()
  return row   # None or (user_id, username, email)

fetchone returns the first row of the table satisfying both equalities. -/

/-- verify_user: look up the first Users row whose email and stored digest
both match, returning the (user_id, username, email) triple or nothing.
The digest function hash_password is a parameter of the embedding. -/
def verify_user (hash : String → String) (db : DB) (email pw : String) :
    Option (Nat × String × String) :=
  match db.users.find? (fun u => u.email == email && u.password == hash pw) with
  | some u => some (u.user_id, u.username, u.email)
  | none => none

theorem find_eq_of_unique {α : Type} (p : α → Bool) (l : List α) (a : α)
    (ha : a ∈ l) (hpa : p a = true) (huniq : ∀ b ∈ l, p b = true → b = a) :
    l.find? p = some a := by
  induction l with
  | nil => cases ha
  | cons x xs ih =>
    by_cases hx : p x = true
    · rw [List.find?_cons_of_pos xs hx]
      exact congrArg some (huniq x (List.mem_cons_self x xs) hx)
    · rw [List.find?_cons_of_neg xs hx]
      have hax : a ≠ x := fun h => hx (h ▸ hpa)
      exact ih (List.mem_cons.mp ha |>.resolve_left hax)
        (fun b hb hpb => huniq b (List.mem_cons_of_mem x hb) hpb)

/-- Claim C4: for a stored user row u whose email is unique in the table,
verify_user with that email returns the identity of u exactly when the
stored digest equals the digest of the supplied password, and returns
nothing whenever the digest of the supplied password differs from the
stored one. -/
theorem verify_user_correct (hash : String → String) (db : DB) (u : UserRow)
    (P : String) (hu : u ∈ db.users)
    (huniq : ∀ v ∈ db.users, v.email = u.email → v = u) :
    (verify_user hash db u.email P = some (u.user_id, u.username, u.email) ↔
      u.password = hash P) ∧
    (u.password ≠ hash P → verify_user hash db u.email P = none) := by
  have hnone : u.password ≠ hash P → verify_user hash db u.email P = none := by
    intro hne
    rw [verify_user]
    have : db.users.find? (fun v => v.email == u.email && v.password == hash P) = none := by
      rw [List.find?_eq_none]
      intro v hv hpv
      rcases Bool.and_eq_true _ _ |>.mp hpv with ⟨he, hp⟩
      have hveq : v = u := huniq v hv (eq_of_beq he)
      exact hne (hveq ▸ eq_of_beq hp)
    rw [this]
  constructor
  · constructor
    · intro hsome
      by_contra hne
      rw [hnone hne] at hsome
      cases hsome
    · intro hpw
      rw [verify_user]
      have : db.users.find? (fun v => v.email == u.email && v.password == hash P) =
          some u := by
        refine find_eq_of_unique _ _ u hu ?_ ?_
        · simp [hpw]
        · intro b hb hpb
          rcases Bool.and_eq_true _ _ |>.mp hpb with ⟨he, _⟩
          exact huniq b hb (eq_of_beq he)
      rw [this]
  · exact hnone

/-- Concrete database for the C4 witness: one user whose stored digest is
hash0 "pw" = "pw#". -/
def exDB4 : DB :=
  { users := [⟨1, "alice", "alice@example.com", "pw#", "t0"⟩],
    posts := [], comments := [], relationships := [] }

/-- Witness for Claim C4 at a concrete input: authentication succeeds with
the registered password and fails with a different password. -/
theorem verify_user_correct_witness :
    verify_user hash0 exDB4 "alice@example.com" "pw" =
      some (1, "alice", "alice@example.com") ∧
    verify_user hash0 exDB4 "alice@example.com" "wrong" = none :=
  ⟨(verify_user_correct hash0 exDB4 ⟨1, "alice", "alice@example.com", "pw#", "t0"⟩
      "pw" (by decide) (by decide)).1.mpr (by decide),
   (verify_user_correct hash0 exDB4 ⟨1, "alice", "alice@example.com", "pw#", "t0"⟩
      "wrong" (by decide) (by decide)).2 (by decide)⟩

/-! ### Claim C5: time validation in the Add Post handler

Embedding of the Add Post handler (Post Management):

  try:
      datetime.strptime(time_input, "%H:%M:%S")
      created_at = f"{date_input} {time_input}"
      time_valid = True
  except ValueError:
      time_valid = False
  if st.button("Add Post"):
      if not content: warn
      elif not time_valid: warn
      else: INSERT INTO Posts (user_id, content, likes, created_at)

strptime with format "%H:%M:%S" accepts exactly three colon-separated
fields of one or two digits with hour in 0..23, minute in 0..59 and second
in 0..61 (Python allows leap seconds up to 61). -/

/-- Split a character list at the colon separators. -/
def splitOnColon (cs : List Char) : List (List Char) :=
  match cs with
  | [] => [[]]
  | c :: rest =>
    let r := splitOnColon rest
    if c == ':' then [] :: r
    else
      match r with
      | [] => [[c]]
      | f :: fs => (c :: f) :: fs

/-- Numeric value of a digit string. -/
def digitsToNat (cs : List Char) : Nat :=
  cs.foldl (fun a c => a * 10 + (c.toNat - 48)) 0

/-- One strptime field: one or two digit characters whose value is at most
hi. -/
def parseTimeField (hi : Nat) (cs : List Char) : Option Nat :=
  if (cs.length == 1 || cs.length == 2) && cs.all Char.isDigit then
    if digitsToNat cs ≤ hi then some (digitsToNat cs) else none
  else none

/-- datetime.strptime(s, "%H:%M:%S"): some (h, m, sec) on success, none
when the string does not parse. -/
def strptime_HMS (s : String) : Option (Nat × Nat × Nat) :=
  match splitOnColon s.toList with
  | [hs, ms, ss] =>
    match parseTimeField 23 hs, parseTimeField 59 ms, parseTimeField 61 ss with
    | some h, some m, some sec => some (h, m, sec)
    | _, _, _ => none
  | _ => none

/-- The AUTOINCREMENT id for the next Posts row. -/
def nextPostId (db : DB) : Nat :=
  (db.posts.map (fun p => p.post_id)).foldr Nat.max 0 + 1

/-- The Add Post handler: reject on empty content, reject when the time
string fails strptime, otherwise INSERT the post with created_at equal to
the date string, a space, and the time string.  The Bool records whether a
row was inserted. -/
def add_post (db : DB) (uid : Nat) (content : String) (likes : Nat)
    (dateInput timeInput : String) : DB × Bool :=
  if content.isEmpty then (db, false)
  else
    match strptime_HMS timeInput with
    | none => (db, false)
    | some _ =>
      ({ db with posts := db.posts ++
          [⟨nextPostId db, uid, content, likes,
            dateInput ++ " " ++ timeInput⟩] }, true)

/-- Claim C5: the time string "25:61:00" is rejected before any insert
(the database is returned unchanged and no row is written), while the
valid time "14:30:00" combined with the date 2024-01-15 is accepted and
stored with created_at = "2024-01-15 14:30:00". -/
theorem add_post_time_validation (db : DB) (uid : Nat) (content : String)
    (likes : Nat) (d : String) (hc : content.isEmpty = false) :
    add_post db uid content likes d "25:61:00" = (db, false) ∧
    add_post db uid content likes "2024-01-15" "14:30:00" =
      ({ db with posts := db.posts ++
          [⟨nextPostId db, uid, content, likes, "2024-01-15 14:30:00"⟩] }, true) := by
  have hbad : strptime_HMS "25:61:00" = none := by decide
  have hgood : strptime_HMS "14:30:00" = some (14, 30, 0) := by decide
  constructor
  · rw [add_post, if_neg (by simp [hc]), hbad]
  · rw [add_post, if_neg (by simp [hc]), hgood]
    have hcat : ("2024-01-15" ++ " " ++ "14:30:00" : String) = "2024-01-15 14:30:00" := by
      decide
    rw [hcat]

/-- Witness for Claim C5 at a concrete input. -/
theorem add_post_time_validation_witness :
    add_post exDB4 1 "hello" 0 "2024-02-02" "25:61:00" = (exDB4, false) ∧
    add_post exDB4 1 "hello" 0 "2024-01-15" "14:30:00" =
      ({ exDB4 with posts := exDB4.posts ++
          [⟨nextPostId exDB4, 1, "hello", 0, "2024-01-15 14:30:00"⟩] }, true) :=
  add_post_time_validation exDB4 1 "hello" 0 "2024-02-02" (by decide)

/-! ### Claim C6: the Trending Posts query

Embedding of the Analytics branch query

  SELECT p.post_id, p.content, (p.likes + COUNT(c.comment_id)) AS engagement_score
  FROM Posts p
  LEFT JOIN Comments c ON p.post_id = c.post_id
  GROUP BY p.post_id
  ORDER BY engagement_score DESC
  LIMIT 5;

Only one table is joined, so each post's group holds its matching comment
rows (or a single NULL row) and COUNT(c.comment_id) counts the non-NULL
entries. -/

/-- Comments attached to the given post (ON p.post_id = c.post_id). -/
def commentsOnPost (db : DB) (pid : Nat) : List CommentRow :=
  db.comments.filter (fun c => c.post_id == pid)

/-- The LEFT JOIN rows of one post: its matching comments, or a single
NULL row when it has none. -/
def trendingJoinRows (db : DB) (p : PostRow) : List (Option CommentRow) :=
  let cs := commentsOnPost db p.post_id
  if cs.isEmpty then [none] else cs.map some

/-- engagement_score of one post: p.likes + COUNT(c.comment_id) over its
join rows. -/
def trendingScore (db : DB) (p : PostRow) : Nat :=
  p.likes + ((trendingJoinRows db p).filter (fun c => c.isSome)).length

/-- The full Trending Posts result: (post_id, content, engagement_score)
per post, ordered descending by engagement_score, LIMIT 5. -/
def trendingPosts (db : DB) : List (Nat × String × Nat) :=
  (sortDesc (fun e => e.2.2)
    (db.posts.map (fun p => (p.post_id, p.content, trendingScore db p)))).take 5

/-- Claim C6: for every post the engagement_score equals likes plus the
number of comments on that post (so a post with likes = 5 and 3 comments
scores 8), the result rows are ordered descending by engagement_score, and
at most 5 rows are returned. -/
theorem trendingPosts_correct (db : DB) (p : PostRow) :
    trendingScore db p = p.likes + (commentsOnPost db p.post_id).length ∧
    List.Pairwise (fun a b : Nat × String × Nat => b.2.2 ≤ a.2.2) (trendingPosts db) ∧
    (trendingPosts db).length ≤ 5 := by
  refine ⟨?_, ?_, ?_⟩
  · rw [trendingScore, trendingJoinRows]
    by_cases h : (commentsOnPost db p.post_id).isEmpty
    · simp [h, List.isEmpty_iff.mp h]
    · simp only [h, if_false, Bool.false_eq_true]
      rw [List.filter_map]
      simp [Function.comp_def]
  · exact List.Pairwise.sublist (List.take_sublist 5 _)
      (pairwise_sortDesc (fun e : Nat × String × Nat => e.2.2) _)
  · rw [trendingPosts]
    simp [List.length_take]

/-- Concrete database for the C6 example: post 1 has likes = 5 and 3
comments. -/
def exDB6 : DB :=
  { users := [⟨1, "alice", "a@x", "h", "t"⟩],
    posts := [⟨1, 1, "p1", 5, "t"⟩],
    comments := [⟨1, 1, 1, "c1", "t"⟩, ⟨2, 1, 1, "c2", "t"⟩, ⟨3, 1, 1, "c3", "t"⟩],
    relationships := [] }

/-- Concrete illustration of Claim C6: a post with likes = 5 and 3
comments reports engagement_score = 8. -/
theorem trendingPosts_example : trendingPosts exDB6 = [(1, "p1", 8)] := by
  decide

/-! ### Claim C7: the Top Influencers query

Embedding of the Analytics branch query

  SELECT u.username, COUNT(r.following_id) AS followers
  FROM Users u
  JOIN Relationships r ON u.user_id = r.following_id
  GROUP BY u.username
  ORDER BY followers DESC
  LIMIT 10;

This is an INNER join: a user with no matching Relationships row
contributes no join row at all, hence no group and no result row. -/

/-- The inner-join rows: one (username, edge) pair per user and matching
relationship edge in which the user is the following side. -/
def influencerJoinRows (db : DB) : List (String × RelRow) :=
  db.users.flatMap (fun u =>
    (db.relationships.filter (fun r => r.following_id == u.user_id)).map
      (fun r => (u.username, r)))

/-- The full Top Influencers result: one row per distinct username
occurring in the join rows, with the COUNT of its join rows, ordered
descending, LIMIT 10. -/
def topInfluencers (db : DB) : List (String × Nat) :=
  (sortDesc (fun e : String × Nat => e.2)
    ((dedupFirst ((influencerJoinRows db).map (fun e => e.1))).map
      (fun g => (g, ((influencerJoinRows db).filter
        (fun e => e.1 == g)).length)))).take 10

/-- Concrete database: two users; user 1 follows user 2, so user 1 has
zero followers. -/
def exDB7 : DB :=
  { users := [⟨1, "u1", "e1", "h", "t"⟩, ⟨2, "u2", "e2", "h", "t"⟩],
    posts := [], comments := [],
    relationships := [⟨1, 2⟩] }

/-- Claim C7 (counterexample): with two users and a single follow edge
from user 1 to user 2, the Top Influencers result has only one row and
the username of the zero-follower user 1 does not appear, refuting the
for-each-user quantifier (a user with zero followers is dropped by the
inner join, not reported with follower_count 0). -/
theorem topInfluencers_drops_zero_followers :
    exDB7.users.length = 2 ∧
    topInfluencers exDB7 = [("u2", 1)] ∧
    "u1" ∉ (topInfluencers exDB7).map (fun e => e.1) := by
  refine ⟨by decide, by decide, by decide⟩

/-- Claim C7 (amended): every reported row carries follower_count equal to
the number of inner-join rows for its username, that count is positive
(zero-follower users never appear), the rows are ordered descending by
follower_count, and at most 10 rows are returned. -/
theorem topInfluencers_correct (db : DB) (e : String × Nat)
    (he : e ∈ topInfluencers db) :
    (topInfluencers db).length ≤ 10 ∧
    List.Pairwise (fun a b : String × Nat => b.2 ≤ a.2) (topInfluencers db) ∧
    e.2 = ((influencerJoinRows db).filter (fun x => x.1 == e.1)).length ∧
    0 < e.2 := by
  have hlen : (topInfluencers db).length ≤ 10 := by
    rw [topInfluencers]
    simp [List.length_take]
  have hsorted : List.Pairwise (fun a b : String × Nat => b.2 ≤ a.2)
      (topInfluencers db) :=
    List.Pairwise.sublist (List.take_sublist 10 _)
      (pairwise_sortDesc (fun e : String × Nat => e.2) _)
  have hmem : e ∈ (dedupFirst ((influencerJoinRows db).map (fun x => x.1))).map
      (fun g => (g, ((influencerJoinRows db).filter (fun x => x.1 == g)).length)) := by
    have h1 := List.mem_of_mem_take he
    exact (mem_sortDesc _ _ e).mp h1
  rcases List.mem_map.mp hmem with ⟨g, hg, hge⟩
  have hg2 : g ∈ (influencerJoinRows db).map (fun x => x.1) :=
    (mem_dedupFirst _ g).mp hg
  rcases List.mem_map.mp hg2 with ⟨x, hx, hxg⟩
  refine ⟨hlen, hsorted, ?_, ?_⟩
  · rw [← hge]
  · rw [← hge]
    have hxin : x ∈ (influencerJoinRows db).filter (fun y => y.1 == g) :=
      List.mem_filter.mpr ⟨hx, by simp [hxg]⟩
    calc 0 < 1 := Nat.zero_lt_one
      _ ≤ ((influencerJoinRows db).filter (fun y => y.1 == g)).length :=
        List.length_pos.mpr (fun hnil => by rw [hnil] at hxin; cases hxin)

/-- Witness for the amended Claim C7 at a concrete input: the single row
of topInfluencers exDB7. -/
theorem topInfluencers_correct_witness :
    (topInfluencers exDB7).length ≤ 10 ∧
    List.Pairwise (fun a b : String × Nat => b.2 ≤ a.2) (topInfluencers exDB7) ∧
    ("u2", 1).2 = ((influencerJoinRows exDB7).filter
      (fun x => x.1 == ("u2", 1).1)).length ∧
    0 < ("u2", (1 : Nat)).2 :=
  topInfluencers_correct exDB7 ("u2", 1) (by decide)

/-! ### Claim C8: create_indexes idempotence

Embedding of analytics/queries.py create_indexes: four
CREATE INDEX IF NOT EXISTS statements executed in order.  The schema state
records the tables and the set of existing index names; CREATE INDEX IF
NOT EXISTS adds the name when absent and is a no-op when present, never an
error. -/

/-- Schema state: the tables and the index names present in the store. -/
structure Schema where
  tables : List String
  indexes : List String
deriving DecidableEq

/-- CREATE INDEX IF NOT EXISTS: add the index name when absent. -/
def createIndexIfNotExists (s : Schema) (idx : String) : Schema :=
  if idx ∈ s.indexes then s else { s with indexes := s.indexes ++ [idx] }

/-- The four index names created by create_indexes, in statement order. -/
def indexNames : List String :=
  ["idx_user_created_at", "idx_post_user_id", "idx_comment_post_id",
   "idx_relationship_following"]

/-- create_indexes(conn): execute the four CREATE INDEX IF NOT EXISTS
statements in order and commit. -/
def create_indexes (s : Schema) : Schema :=
  indexNames.foldl createIndexIfNotExists s

theorem tables_createIndexIfNotExists (s : Schema) (idx : String) :
    (createIndexIfNotExists s idx).tables = s.tables := by
  rw [createIndexIfNotExists]
  by_cases h : idx ∈ s.indexes
  · rw [if_pos h]
  · rw [if_neg h]

theorem mem_indexes_createIndexIfNotExists (s : Schema) (idx a : String)
    (ha : a ∈ s.indexes) : a ∈ (createIndexIfNotExists s idx).indexes := by
  rw [createIndexIfNotExists]
  by_cases h : idx ∈ s.indexes
  · rw [if_pos h]; exact ha
  · rw [if_neg h]; exact List.mem_append_left _ ha

theorem self_mem_indexes_createIndexIfNotExists (s : Schema) (idx : String) :
    idx ∈ (createIndexIfNotExists s idx).indexes := by
  rw [createIndexIfNotExists]
  by_cases h : idx ∈ s.indexes
  · rw [if_pos h]; exact h
  · rw [if_neg h]; exact List.mem_append_right _ (List.mem_singleton.mpr rfl)

theorem mem_indexes_foldl (names : List String) (s : Schema) (a : String)
    (ha : a ∈ s.indexes) :
    a ∈ (names.foldl createIndexIfNotExists s).indexes := by
  induction names generalizing s with
  | nil => exact ha
  | cons n ns ih =>
    exact ih (createIndexIfNotExists s n) (mem_indexes_createIndexIfNotExists s n a ha)

theorem all_mem_indexes_foldl (names : List String) (s : Schema) :
    ∀ n ∈ names, n ∈ (names.foldl createIndexIfNotExists s).indexes := by
  induction names generalizing s with
  | nil => intro n hn; cases hn
  | cons m ms ih =>
    intro n hn
    rcases List.mem_cons.mp hn with rfl | hn
    · exact mem_indexes_foldl ms _ n (self_mem_indexes_createIndexIfNotExists s n)
    · exact ih (createIndexIfNotExists s m) n hn

theorem foldl_of_all_mem (names : List String) (s : Schema)
    (h : ∀ n ∈ names, n ∈ s.indexes) :
    names.foldl createIndexIfNotExists s = s := by
  induction names generalizing s with
  | nil => rfl
  | cons m ms ih =>
    have hm : m ∈ s.indexes := h m (List.mem_cons_self m ms)
    have : createIndexIfNotExists s m = s := by rw [createIndexIfNotExists, if_pos hm]
    rw [List.foldl_cons, this]
    exact ih s (fun n hn => h n (List.mem_cons_of_mem m hn))

theorem tables_foldl (names : List String) (s : Schema) :
    (names.foldl createIndexIfNotExists s).tables = s.tables := by
  induction names generalizing s with
  | nil => rfl
  | cons m ms ih =>
    rw [List.foldl_cons, ih, tables_createIndexIfNotExists]

/-- Claim C8: create_indexes never raises (it is a total function of the
schema state, in particular defined on an empty store), it leaves the
tables untouched, and a second call leaves the schema exactly as the first
call left it (idempotence). -/
theorem create_indexes_idempotent (s : Schema) :
    create_indexes (create_indexes s) = create_indexes s ∧
    (create_indexes s).tables = s.tables ∧
    create_indexes { tables := s.tables, indexes := [] } =
      { tables := s.tables, indexes := indexNames } := by
  refine ⟨?_, ?_, ?_⟩
  · rw [create_indexes, create_indexes]
    exact foldl_of_all_mem indexNames _ (all_mem_indexes_foldl indexNames s)
  · exact tables_foldl indexNames s
  · rw [create_indexes]
    rfl

/-! ### Claim C9: the Update User handler with the password omitted

Embedding of the Update User handler (User Management / Edit User):

  if new_pw:
      UPDATE Users SET username=?, email=?, password=? WHERE user_id=?
  else:
      UPDATE Users SET username=?, email=? WHERE user_id=?
-/

/-- The Update User handler: when the new password is non-empty the row
also gets a fresh digest, otherwise only username and email are set.  Only
rows whose user_id matches are touched. -/
def update_user (hash : String → String) (db : DB) (uid : Nat)
    (newName newEmail newPw : String) : DB :=
  if !newPw.isEmpty then
    { db with users := db.users.map (fun u =>
        if u.user_id == uid then
          { u with username := newName, email := newEmail, password := hash newPw }
        else u) }
  else
    { db with users := db.users.map (fun u =>
        if u.user_id == uid then
          { u with username := newName, email := newEmail }
        else u) }

/-- Claim C9: updating a user with the password field left empty touches
no other table, keeps the number of user rows, preserves every stored
password digest, every user_id and every created_at at every position, and
leaves every row whose user_id differs from the target completely
unchanged. -/
theorem update_user_no_password (hash : String → String) (db : DB) (uid : Nat)
    (n e : String) (i : Nat) (u : UserRow) (hi : db.users[i]? = some u) :
    (update_user hash db uid n e "").posts = db.posts ∧
    (update_user hash db uid n e "").comments = db.comments ∧
    (update_user hash db uid n e "").relationships = db.relationships ∧
    (update_user hash db uid n e "").users.length = db.users.length ∧
    ∃ w : UserRow, (update_user hash db uid n e "").users[i]? = some w ∧
      w.password = u.password ∧ w.user_id = u.user_id ∧
      w.created_at = u.created_at ∧ (u.user_id ≠ uid → w = u) := by
  have hdef : update_user hash db uid n e "" =
      { db with users := db.users.map (fun v =>
          if v.user_id == uid then { v with username := n, email := e }
          else v) } := by
    rw [update_user, if_neg (by decide)]
  refine ⟨by rw [hdef], by rw [hdef], by rw [hdef], ?_, ?_⟩
  · rw [hdef]
    exact List.length_map _ _
  · refine ⟨if u.user_id == uid then { u with username := n, email := e } else u,
      ?_, ?_, ?_, ?_, ?_⟩
    · rw [hdef]
      show (db.users.map (fun v =>
        if v.user_id == uid then { v with username := n, email := e } else v))[i]? =
        some (if u.user_id == uid then { u with username := n, email := e } else u)
      rw [List.getElem?_map, hi]
      rfl
    · by_cases h : u.user_id == uid
      · simp [h]
      · simp [h]
    · by_cases h : u.user_id == uid
      · simp [h]
      · simp [h]
    · by_cases h : u.user_id == uid
      · simp [h]
      · simp [h]
    · intro hne
      rw [if_neg (by simpa using hne)]

/-- Witness for Claim C9 at a concrete input: updating user 1 of exDB2
with an empty password leaves the stored digest of row 0 unchanged. -/
theorem update_user_no_password_witness :
    (update_user hash0 exDB2 1 "newname" "newmail" "").posts = exDB2.posts ∧
    (update_user hash0 exDB2 1 "newname" "newmail" "").comments = exDB2.comments ∧
    (update_user hash0 exDB2 1 "newname" "newmail" "").relationships =
      exDB2.relationships ∧
    (update_user hash0 exDB2 1 "newname" "newmail" "").users.length =
      exDB2.users.length ∧
    ∃ w : UserRow, (update_user hash0 exDB2 1 "newname" "newmail" "").users[0]? =
        some w ∧
      w.password = (⟨1, "u", "e1", "h", "t"⟩ : UserRow).password ∧
      w.user_id = (⟨1, "u", "e1", "h", "t"⟩ : UserRow).user_id ∧
      w.created_at = (⟨1, "u", "e1", "h", "t"⟩ : UserRow).created_at ∧
      ((⟨1, "u", "e1", "h", "t"⟩ : UserRow).user_id ≠ 1 →
        w = ⟨1, "u", "e1", "h", "t"⟩) :=
  update_user_no_password hash0 exDB2 1 "newname" "newmail" 0
    ⟨1, "u", "e1", "h", "t"⟩ (by decide)

/-! ### Claim C10: the Create Relationship handler

Embedding of the Create Relationship handler (User Management / Manage
Relationships):

  if follower == following: error, no insert
  else:
      existing = SELECT 1 FROM Relationships WHERE follower_id=? AND following_id=?
      if not existing.empty: warning, no insert
      else: INSERT INTO Relationships (follower_id, following_id) VALUES (?, ?)
-/

/-- Outcome tag of one Create Relationship attempt. -/
inductive RelResult where
  | selfFollow
  | alreadyExists
  | created
deriving DecidableEq

/-- The Create Relationship handler: refuse a self-follow, refuse a pair
already present, otherwise append the edge. -/
def create_relationship (db : DB) (follower following : Nat) : DB × RelResult :=
  if follower == following then (db, RelResult.selfFollow)
  else
    let existing := db.relationships.filter
      (fun r => r.follower_id == follower && r.following_id == following)
    if !existing.isEmpty then (db, RelResult.alreadyExists)
    else ({ db with relationships := db.relationships ++ [⟨follower, following⟩] },
      RelResult.created)

/-- Claim C10: under the invariant that the Relationships table has no
self-edge and no duplicate row, the handler refuses a self-follow and a
pair already present (returning the table unchanged with the matching
refusal tag), and whatever branch runs, the resulting table again has no
self-edge and no duplicate row. -/
theorem create_relationship_invariant (db : DB) (F G : Nat)
    (hself : ∀ r ∈ db.relationships, r.follower_id ≠ r.following_id)
    (hnd : db.relationships.Nodup) :
    (F = G → create_relationship db F G = (db, RelResult.selfFollow)) ∧
    (F ≠ G → (⟨F, G⟩ : RelRow) ∈ db.relationships →
      create_relationship db F G = (db, RelResult.alreadyExists)) ∧
    (∀ r ∈ (create_relationship db F G).1.relationships,
      r.follower_id ≠ r.following_id) ∧
    (create_relationship db F G).1.relationships.Nodup := by
  have hpred : ∀ r : RelRow,
      (r.follower_id == F && r.following_id == G) = true ↔ r = ⟨F, G⟩ := by
    intro r
    constructor
    · intro h
      rcases Bool.and_eq_true _ _ |>.mp h with ⟨h1, h2⟩
      cases r
      simp only [RelRow.mk.injEq]
      exact ⟨eq_of_beq h1, eq_of_beq h2⟩
    · intro h
      rw [h]
      simp
  by_cases hFG : F = G
  · have hbr : create_relationship db F G = (db, RelResult.selfFollow) := by
      rw [create_relationship, if_pos (by simp [hFG])]
    refine ⟨fun _ => hbr, fun hne _ => absurd hFG hne, ?_, ?_⟩
    · rw [hbr]; exact hself
    · rw [hbr]; exact hnd
  · by_cases hmem : (⟨F, G⟩ : RelRow) ∈ db.relationships
    · have hx : (⟨F, G⟩ : RelRow) ∈ db.relationships.filter
          (fun r => r.follower_id == F && r.following_id == G) :=
        List.mem_filter.mpr ⟨hmem, (hpred ⟨F, G⟩).mpr rfl⟩
      have hne : (db.relationships.filter
          (fun r => r.follower_id == F && r.following_id == G)).isEmpty = false :=
        List.isEmpty_eq_false_iff_exists_mem.mpr ⟨⟨F, G⟩, hx⟩
      have hbr : create_relationship db F G = (db, RelResult.alreadyExists) := by
        rw [create_relationship, if_neg (by simp [hFG]), if_pos (by simp [hne])]
      refine ⟨fun h => absurd h hFG, fun _ _ => hbr, ?_, ?_⟩
      · rw [hbr]; exact hself
      · rw [hbr]; exact hnd
    · have hemp : (db.relationships.filter
          (fun r => r.follower_id == F && r.following_id == G)).isEmpty = true := by
        rw [List.isEmpty_iff, List.filter_eq_nil_iff]
        intro r hr hp
        exact hmem ((hpred r).mp hp ▸ hr)
      have hbr : create_relationship db F G =
          ({ db with relationships := db.relationships ++ [⟨F, G⟩] },
            RelResult.created) := by
        rw [create_relationship, if_neg (by simp [hFG]), if_neg (by simp [hemp])]
      refine ⟨fun h => absurd h hFG, fun _ hm => absurd hm hmem, ?_, ?_⟩
      · rw [hbr]
        intro r hr
        rcases List.mem_append.mp hr with hr | hr
        · exact hself r hr
        · rw [List.mem_singleton.mp hr]
          exact hFG
      · rw [hbr]
        refine List.nodup_append.mpr ⟨hnd, List.nodup_singleton _, ?_⟩
        intro a ha hb
        rw [List.mem_singleton.mp hb] at ha
        exact hmem ha

/-- Witness for Claim C10 at concrete inputs: on exDB7 (whose single edge
(1, 2) is neither a self-edge nor duplicated) the refusal branches fire as
claimed and the invariant is preserved. -/
theorem create_relationship_invariant_witness :
    create_relationship exDB7 2 2 = (exDB7, RelResult.selfFollow) ∧
    create_relationship exDB7 1 2 = (exDB7, RelResult.alreadyExists) ∧
    (∀ r ∈ (create_relationship exDB7 2 1).1.relationships,
      r.follower_id ≠ r.following_id) ∧
    (create_relationship exDB7 2 1).1.relationships.Nodup :=
  ⟨(create_relationship_invariant exDB7 2 2 (by decide) (by decide)).1 rfl,
   (create_relationship_invariant exDB7 1 2 (by decide) (by decide)).2.1
     (by decide) (by decide),
   (create_relationship_invariant exDB7 2 1 (by decide) (by decide)).2.2.1,
   (create_relationship_invariant exDB7 2 1 (by decide) (by decide)).2.2.2⟩
